import Mathlib

/-!
Shallow embedding of the EON_AI_APP sales-analytics pipeline
(`src/main.py`, `src/nodes.py`, `src/state.py`) and proofs about it.

Modelling conventions:
* Python dict-shaped records become Lean structures; keys that may be
  absent become `Option`.
* LangGraph channel semantics from `state.py`: `LastValue` fields merge by
  overwrite, `Annotated[List, add]` fields merge by list concatenation.
  A node's return value is a `Delta` (fields it did not return are `none`).
* External collaborators (LLM calls, SQL engine, the Azure news agent) are
  passed in as function parameters; fallible ones return `Except`.
  A Python exception that a node does not catch is modelled by the node
  itself returning `Except.error`.
* Python truthiness of a string (`if not s`) is modelled as `s = ""`.
-/

namespace EonApp

/-- One conversation-history message (`{"role": ..., "content": ...}`). -/
structure HistMsg where
  role : String
  content : String
deriving DecidableEq

/-- A retrieved deal record (row of the open-deals table), restricted to the
fields the nodes actually read.  `none` models an absent key. -/
structure Deal where
  opportunity_number : Option String := none
  deal_id : Option String := none
  id : Option String := none
  customer_industry : Option String := none
  customer_name : Option String := none
deriving DecidableEq

/-- A SHAP row (`row.to_dict()` in `agent2_node`): an association list from
column name to (stringified) value. -/
def ShapRow : Type := List (String × String)

instance : DecidableEq ShapRow := by
  unfold ShapRow
  infer_instance

/-- One explanation entry produced by `agent2_node`. -/
structure ExplEntry where
  opportunity_number : String
  deal_id : Option String := none
  explanation : String
deriving DecidableEq

/-- One news entry produced by `agent3_node`.  Fields that a given code path
does not put into the dict are `none`. -/
structure NewsEntry where
  industry : Option String := none
  customer : Option String := none
  query : Option String := none
  error : Option String := none
  snippets : Option (List String) := none
deriving DecidableEq

/-- The shared graph state (`AppState` in `state.py`), with every field
present (absent keys are modelled by the empty default). -/
structure AppState where
  user_query : String := ""
  parsed_filters : String := ""
  agents_to_call : List String := []
  sql_query : String := ""
  retrieved_deals : List Deal := []
  explanations : List ExplEntry := []
  news : List NewsEntry := []
  errors : List String := []
  history : List HistMsg := []
deriving DecidableEq

/-- A node's partial return value (the delta merged into the state by
LangGraph).  `none` means the node's returned dict had no such key. -/
structure Delta where
  parsed_filters : Option String := none
  agents_to_call : Option (List String) := none
  sql_query : Option String := none
  retrieved_deals : Option (List Deal) := none
  explanations : Option (List ExplEntry) := none
  news : Option (List NewsEntry) := none
  errors : Option (List String) := none
  history : Option (List HistMsg) := none
deriving DecidableEq

/-- Channel merge from `state.py`: `LastValue` fields overwrite,
`Annotated[..., add]` fields (`retrieved_deals`, `explanations`, `news`,
`errors`) concatenate the delta onto the existing value. -/
def mergeState (s : AppState) (d : Delta) : AppState where
  user_query := s.user_query
  parsed_filters := d.parsed_filters.getD s.parsed_filters
  agents_to_call := d.agents_to_call.getD s.agents_to_call
  sql_query := d.sql_query.getD s.sql_query
  retrieved_deals := s.retrieved_deals ++ d.retrieved_deals.getD []
  explanations := s.explanations ++ d.explanations.getD []
  news := s.news ++ d.news.getD []
  errors := s.errors ++ d.errors.getD []
  history := d.history.getD s.history

/-- The delta corresponding to a Python node `return state` (as `agent3_node`
does): every state field is present in the returned dict. -/
def fullDelta (s : AppState) : Delta where
  parsed_filters := some s.parsed_filters
  agents_to_call := some s.agents_to_call
  sql_query := some s.sql_query
  retrieved_deals := some s.retrieved_deals
  explanations := some s.explanations
  news := some s.news
  errors := some s.errors
  history := some s.history

/-- Python `x or y` on optional strings (`deal.get("deal_id") or deal.get("id")`):
`none` and the empty string are falsy. -/
def pyOr (a b : Option String) : Option String :=
  match a with
  | some v => if v = "" then b else some v
  | none => b

/-!
Kernel-computable character-list implementations of the Python string
operations the nodes use (`.lower()`, `.strip()`, `.startswith()`,
substring `in`), so closed theorems can be settled by `decide`/`rfl`.
-/

/-- ASCII whitespace, the determinization of what Python `.strip()` removes. -/
def isWS (c : Char) : Bool := c = ' ' || c = '\t' || c = '\n' || c = '\r'

/-- Python `s.strip()`. -/
def strTrim (s : String) : String :=
  ⟨((s.data.dropWhile isWS).reverse.dropWhile isWS).reverse⟩

/-- Python `s.lower()`. -/
def strLower (s : String) : String := ⟨s.data.map Char.toLower⟩

/-- Python `s.startswith(pre)`. -/
def strStartsWith (s pre : String) : Bool := pre.data.isPrefixOf s.data

/-- Occurrence of `pat` as a contiguous sub-sequence. -/
def containsCh (pat : List Char) : List Char → Bool
  | [] => pat.isEmpty
  | c :: rest => pat.isPrefixOf (c :: rest) || containsCh pat rest

/-- Python substring test `pat in s`. -/
def strContains (s pat : String) : Bool := containsCh pat.data s.data

/-- Order-preserving de-duplication keeping the first occurrence
(Python `dict.fromkeys` and the determinisation of `set` insertion). -/
def dedupFirst {α : Type} [DecidableEq α] (l : List α) : List α :=
  l.foldl (fun acc x => if x ∈ acc then acc else acc ++ [x]) []

/-! ## Planner (`orchestrator_node`, `nodes.py` lines 15-90) -/

/-- The fixed stage id space `["1", "2", "3"]`. -/
def fixedAgents : List String := ["1", "2", "3"]

/-- The parsed planner payload: the result of `json.loads` on the LLM reply,
after the Python coercions `data.get("filters", "") or ""` (so `filters`
is a plain string) and `data.get("agents", ...)` (`none` models a missing
key or a falsy value, both of which trigger the Python `or` default). -/
structure PlannerPayload where
  filters : String
  agents : Option (List String)

/-- Python `agents = data.get("agents", default) or default`. -/
def parseAgents (a : Option (List String)) : List String :=
  match a with
  | none => fixedAgents
  | some l => if l = [] then fixedAgents else l

/-- The `orchestrator_node`: the LLM call plus `json.loads` is abstracted as
`resp : Except String PlannerPayload` (`Except.error` = any exception in the
`try` block, carrying the diagnostic text).  Faithful to `nodes.py` 57-90:
safe defaults, agent-id validation, filter carry-over, history append.
Error message texts are abbreviated (the claims depend only on their count). -/
def orchestrator_node (resp : Except String PlannerPayload) (s : AppState) : Delta :=
  let res : String × List String × List String :=
    match resp with
    | .error e => ("", fixedAgents, ["Failed to parse planner JSON: " ++ e])
    | .ok p =>
      let ag := parseAgents p.agents
      if ag.any (fun a => !(fixedAgents.contains a)) then
        (p.filters, fixedAgents, ["Invalid agent id; defaulting to 1,2,3."])
      else
        (p.filters, ag, [])
  let pf0 := res.1
  let ag := res.2.1
  let errs := res.2.2
  let pf := if pf0 = "" ∧ s.parsed_filters ≠ "" then s.parsed_filters else pf0
  { parsed_filters := some pf
    agents_to_call := some ag
    errors := some (s.errors ++ errs)
    history := some (s.history ++
      [⟨"user", s.user_query⟩,
       ⟨"system", "Filters: " ++ pf ++ ", Agents: " ++ String.intercalate "," ag⟩]) }

/-- Spec-side characterization of the planner's selected stage set, following
the spec's words (fail-open defaulting on missing/empty/invalid), to be
compared with `orchestrator_node`. -/
def plannedAgentsSpec (resp : Except String PlannerPayload) : List String :=
  match resp with
  | .error _ => fixedAgents
  | .ok p =>
    match p.agents with
    | none => fixedAgents
    | some l =>
      if l = [] ∨ l.any (fun a => !(fixedAgents.contains a)) then fixedAgents else l

/-! ## Retrieval stage (`agent1_node`, `nodes.py` lines 94-220) -/

/-- The always-required base columns of `agent1_node` (`nodes.py` 116-127). -/
def base_cols : List String :=
  ["opportunity_number", "win_probability", "predicted_outcome", "expected_value",
   "topic", "opportunity_type", "op_created_on", "customer_industry",
   "customer_name", "process_stages"]

/-- Python `" ".join(extract_text(m) for m in history)`: every history message in
this model carries plain string content. -/
def historyText (h : List HistMsg) : String :=
  String.intercalate " " (h.map (fun m => m.content))

/-- Python `(user_query + " " + history_text).lower()`. -/
def queryText (s : AppState) : String :=
  strLower (s.user_query ++ " " ++ historyText s.history)

/-- The column list of the fallback SQL: base columns plus every (lowercased,
de-duplicated) schema column that occurs in the query/history text, then
de-duplicated keeping first occurrences (`list(dict.fromkeys(...))`).
The Python `set` iteration over schema columns is determinised to
first-occurrence order. -/
def agent1_select_cols (schemaColsRaw : List String) (s : AppState) : List String :=
  let schema_cols := dedupFirst (schemaColsRaw.map strLower)
  let extra_cols := schema_cols.filter (fun c => strContains (queryText s) c)
  dedupFirst (base_cols ++ extra_cols)

/-- The query string `agent1_node` executes: the stripped LLM output, unless
it does not start (case-insensitively) with `select`, in which case the
minimal fallback `SELECT <select_cols> FROM <table>[ WHERE <filters>]`. -/
def agent1_sql (table : String) (schemaColsRaw : List String) (llmOut : String)
    (s : AppState) : String :=
  let sql0 := strTrim llmOut
  if (strStartsWith (strLower sql0) "select") = false then
    "SELECT " ++ String.intercalate ", " (agent1_select_cols schemaColsRaw s) ++
      " FROM " ++ table ++
      (if s.parsed_filters ≠ "" then " WHERE " ++ s.parsed_filters else "")
  else sql0

/-- The delta `agent1_node` builds from the fetch outcome (`nodes.py` 206-220):
on failure the error is appended to the pre-existing error list and zero rows
are returned; on success the pre-existing error list is passed through
unchanged.  Either way the delta's `errors` field carries the whole
pre-existing list. -/
def agent1_result (s : AppState) (sql : String) (r : Except String (List Deal)) : Delta :=
  match r with
  | .ok rows =>
    { sql_query := some sql, retrieved_deals := some rows, errors := some s.errors }
  | .error e =>
    { sql_query := some sql, retrieved_deals := some [],
      errors := some (s.errors ++ ["SQL execution failed: " ++ e ++ ". SQL: " ++ sql]) }

/-- The `agent1_node`.  Parameters abstract the collaborators:
`table` = `OPEN_DEALS_TABLE`, `schemaColsRaw` = the schema-introspection
result, `llmOut` = the NL-to-SQL chain's raw output, `fetch` = `pd.read_sql`
on the generated query (only this fetch sits inside a `try` in the source). -/
def agent1_node (table : String) (schemaColsRaw : List String) (llmOut : String)
    (fetch : String → Except String (List Deal)) (s : AppState) : Delta :=
  if "1" ∉ s.agents_to_call then {}
  else
    let sql := agent1_sql table schemaColsRaw llmOut s
    agent1_result s sql (fetch sql)

/-! ## Explanation stage (`agent2_node`, `nodes.py` lines 224-324) -/

/-- Dict access `row.get(k)` on a SHAP row (first binding wins, as dict keys
are unique). -/
def rowGet (r : ShapRow) (k : String) : Option String :=
  (r.find? (fun kv => kv.1 == k)).map (fun kv => kv.2)

/-- Python `str(row["opportunity_number"]).strip()` (rows lacking the column are
keyed by the empty string in this model). -/
def rowKey (r : ShapRow) : String :=
  strTrim ((rowGet r "opportunity_number").getD "")

/-- The `shap_index` lookup: the dict comprehension keeps the last row with a
given key, so look up from the end. -/
def shapLookup (rows : List ShapRow) (k : String) : Option ShapRow :=
  rows.reverse.find? (fun r => rowKey r == k)

/-- A deterministic stand-in for `json.dumps(shap_features)`. -/
def encodeFeats (feats : List (String × String)) : String :=
  String.intercalate "; " (feats.map (fun kv => kv.1 ++ ": " ++ kv.2))

/-- The sentinel text for a deal with no SHAP row. -/
def noShapText : String := "No SHAP data available for this deal."

/-- The deal ids collected for the batched SHAP fetch (`nodes.py` 240):
deals with a truthy `opportunity_number`, stringified and stripped. -/
def agent2_opNums (deals : List Deal) : List String :=
  deals.filterMap (fun d =>
    match d.opportunity_number with
    | some v => if v = "" then none else some (strTrim v)
    | none => none)

/-- One explanation entry (`nodes.py` 291-320): sentinel when the deal has no
SHAP row, otherwise the per-record summarisation of the prediction and the
remaining feature columns.  The summarisation call is not inside a `try`, so
its failure is the node's failure. -/
def agent2_entry (summarize : Option String → String → Except String String)
    (rows : List ShapRow) (d : Deal) : Except String ExplEntry :=
  let op_id := strTrim (d.opportunity_number.getD "")
  match shapLookup rows op_id with
  | none =>
    .ok { opportunity_number := op_id, deal_id := pyOr d.deal_id d.id,
          explanation := noShapText }
  | some row =>
    let feats := row.filter (fun kv =>
      !(kv.1 == "opportunity_number") && !(kv.1 == "prediction"))
    (summarize (rowGet row "prediction") (encodeFeats feats)).map (fun t =>
      { opportunity_number := op_id, deal_id := pyOr d.deal_id d.id,
        explanation := t })

/-- The entry `agent2_entry` produces when the summarisation collaborator
succeeds, with `summ` the pure summarisation text. -/
def agent2_entry_total (summ : Option String → String → String)
    (rows : List ShapRow) (d : Deal) : ExplEntry :=
  let op_id := strTrim (d.opportunity_number.getD "")
  match shapLookup rows op_id with
  | none =>
    { opportunity_number := op_id, deal_id := pyOr d.deal_id d.id,
      explanation := noShapText }
  | some row =>
    let feats := row.filter (fun kv =>
      !(kv.1 == "opportunity_number") && !(kv.1 == "prediction"))
    { opportunity_number := op_id, deal_id := pyOr d.deal_id d.id,
      explanation := summ (rowGet row "prediction") (encodeFeats feats) }

/-- The `agent2_node`.  `summarize` abstracts the per-record LLM summarisation
chain (probability, encoded SHAP features); `shapFetch` abstracts the batched
`pd.read_sql` over the SHAP table.  Neither call sits inside a `try` in the
source, so their failures make the whole node fail (`Except.error`). -/
def agent2_node (summarize : Option String → String → Except String String)
    (shapFetch : List String → Except String (List ShapRow))
    (s : AppState) : Except String Delta :=
  if "2" ∉ s.agents_to_call then .ok {}
  else
    let deals := s.retrieved_deals
    if deals.isEmpty then .ok { explanations := some [] }
    else
      match shapFetch (agent2_opNums deals) with
      | .error e => .error e
      | .ok rows =>
        (deals.mapM (agent2_entry summarize rows)).map (fun es =>
          { explanations := some es })

/-! ## Augmentation stage (`agent3_node`, `nodes.py` lines 327-410) -/

/-- The (industry, customer) pairs `agent3_node` iterates over: per-deal
industry is stripped and lowercased, customer stripped; a pair is kept when
both are non-blank and the (lowercased) industry is not in the literal list
`["Others", "Others 2"]`.  Grouping by industry with per-industry customer
sets is determinised to first-occurrence order with duplicates removed. -/
def agent3_pairs (deals : List Deal) : List (String × String) :=
  let filtered := deals.filterMap (fun d =>
    let industry := strLower (strTrim (d.customer_industry.getD ""))
    let customer := strTrim (d.customer_name.getD "")
    if industry ≠ "" ∧ customer ≠ "" ∧ industry ∉ (["Others", "Others 2"] : List String)
    then some (industry, customer) else none)
  let inds := dedupFirst (filtered.map (fun p => p.1))
  (inds.map (fun ind =>
    (dedupFirst ((filtered.filter (fun p => p.1 == ind)).map (fun p => p.2))).map
      (fun c => (ind, c)))).flatten

/-- The per-pair news query text. -/
def newsQuery (ind c : String) : String :=
  "Give me the latest news and trends about " ++ ind ++
    " industry in Indonesia. Also include any recent trends related to customer " ++
    c ++ " if available."

/-- One news entry for an (industry, customer) pair (`nodes.py` 370-406):
`lookup` abstracts one thread/run round-trip (`Except.error` = the caught
per-pair exception; `.ok (some r)` = a truthy stripped assistant reply `r`;
`.ok none` = no / falsy reply). -/
def agent3_entry (lookup : String → String → Except String (Option String))
    (p : String × String) : NewsEntry :=
  let q := newsQuery p.1 p.2
  match lookup p.1 p.2 with
  | .ok (some r) =>
    { industry := some p.1, customer := some p.2, query := some q,
      snippets := some [r] }
  | .ok none =>
    { industry := some p.1, customer := some p.2, query := some q,
      snippets := some ["No recent news found."] }
  | .error e =>
    { industry := some p.1, customer := some p.2, query := some q,
      error := some ("News search failed: " ++ e), snippets := some [] }

/-- The `agent3_node`.  `clientInit` abstracts `AIProjectClient`/`get_agent`
construction.  The source returns the whole mutated `state` object on every
path of this node (never an empty delta). -/
def agent3_node (lookup : String → String → Except String (Option String))
    (clientInit : Except String Unit) (s : AppState) : Delta :=
  if "3" ∉ s.agents_to_call then fullDelta s
  else if s.retrieved_deals.isEmpty then fullDelta { s with news := [] }
  else
    match clientInit with
    | .error e => fullDelta { s with news := [{ error := some e }] }
    | .ok _ =>
      fullDelta { s with
        news := (agent3_pairs s.retrieved_deals).map (agent3_entry lookup) }

/-! ## Workflow graph (`main.py` lines 9-44) -/

/-- The graph's node names, plus a terminal marker. -/
inductive Node where
  | orchestrator
  | agent1
  | agent2
  | agent3
  | synthesizer
  | done
deriving DecidableEq

/-- The conditional-edge routing of `main.py`: after each node, the lambda
routes on membership of the stage id in `agents_to_call`. -/
def route (agents : List String) : Node → Node
  | .orchestrator => if "1" ∈ agents then .agent1 else .synthesizer
  | .agent1 => if "2" ∈ agents then .agent2 else .synthesizer
  | .agent2 => if "3" ∈ agents then .agent3 else .synthesizer
  | .agent3 => .synthesizer
  | .synthesizer => .done
  | .done => .done

/-- The list of nodes visited starting at `v`, following `route`, with fuel. -/
def runFrom (agents : List String) : Nat → Node → List Node
  | 0, _ => []
  | n + 1, v => if v = .done then [] else v :: runFrom agents n (route agents v)

/-- The full execution trace of one turn (the graph has 5 nodes, so fuel 6
reaches the terminal marker from the entry point on every input). -/
def execTrace (agents : List String) : List Node :=
  runFrom agents 6 .orchestrator

/-! ## Concrete test fixtures used by closed theorems -/

/-- A state with one accumulated error and one retrieved deal, with no
stage selected. -/
def sNone : AppState :=
  { agents_to_call := [], errors := ["e1"],
    retrieved_deals := [{ opportunity_number := some "OP1" }] }

/-- A state with all stages selected and one retrieved deal. -/
def sAll : AppState :=
  { agents_to_call := ["1", "2", "3"],
    retrieved_deals := [{ opportunity_number := some "OP1" }] }

/-- A state with Retrieval selected and one pre-existing accumulated error. -/
def sErrSel : AppState := { agents_to_call := ["1"], errors := ["e1"] }

/-- A state whose query mentions the schema column `discount_percent`. -/
def sDiscount : AppState :=
  { user_query := "show discount_percent deals", agents_to_call := ["1"] }

/-- A deal whose industry is the placeholder `Others`. -/
def dealOthers : Deal :=
  { customer_industry := some "Others", customer_name := some "Acme" }

/-- A state selecting only the Augmentation stage, with the placeholder deal. -/
def sOthers : AppState :=
  { agents_to_call := ["3"], retrieved_deals := [dealOthers] }

/-! ## Helper lemmas -/

theorem exceptMapM_ok {α β : Type} (f : α → Except String β) (g : α → β)
    (hf : ∀ a, f a = .ok (g a)) (l : List α) : l.mapM f = .ok (l.map g) := by
  induction l with
  | nil => rfl
  | cons a l ih => rw [List.mapM_cons, hf a, ih]; rfl

theorem zip_map_self {α β : Type} (g : α → β) (l : List α) :
    ∀ p ∈ (l.map g).zip l, p.1 = g p.2 := by
  induction l with
  | nil => simp
  | cons a l ih =>
    intro p hp
    rw [List.map_cons, List.zip_cons_cons, List.mem_cons] at hp
    rcases hp with h | h
    · rw [h]
    · exact ih p h

theorem agent1_result_sql (s : AppState) (sql : String)
    (r : Except String (List Deal)) :
    (agent1_result s sql r).sql_query = some sql := by
  cases r <;> rfl

theorem agent1_result_errors (s : AppState) (sql : String)
    (r : Except String (List Deal)) :
    ∃ ne, (agent1_result s sql r).errors = some (s.errors ++ ne) := by
  cases r with
  | ok rows => exact ⟨[], by simp [agent1_result]⟩
  | error e => exact ⟨_, rfl⟩

theorem agent1_node_eq (table : String) (cols : List String) (llm : String)
    (fetch : String → Except String (List Deal)) (s : AppState)
    (h1 : "1" ∈ s.agents_to_call) :
    agent1_node table cols llm fetch s
      = agent1_result s (agent1_sql table cols llm s)
          (fetch (agent1_sql table cols llm s)) := by
  rw [agent1_node, if_neg (not_not_intro h1)]

theorem agent2_entry_ok (summ : Option String → String → String)
    (rows : List ShapRow) (d : Deal) :
    agent2_entry (fun p f => .ok (summ p f)) rows d
      = .ok (agent2_entry_total summ rows d) := by
  simp only [agent2_entry, agent2_entry_total]
  cases hlk : shapLookup rows (strTrim (d.opportunity_number.getD "")) <;> rfl

theorem agent2_entry_total_key (summ : Option String → String → String)
    (rows : List ShapRow) (d : Deal) :
    (agent2_entry_total summ rows d).opportunity_number
      = strTrim (d.opportunity_number.getD "") := by
  simp only [agent2_entry_total]
  cases hlk : shapLookup rows (strTrim (d.opportunity_number.getD "")) <;> rfl

theorem agent2_entry_total_sentinel (summ : Option String → String → String)
    (rows : List ShapRow) (d : Deal)
    (h : shapLookup rows (strTrim (d.opportunity_number.getD "")) = none) :
    (agent2_entry_total summ rows d).explanation = noShapText := by
  simp only [agent2_entry_total, h]

theorem agent2_mapM_summ_fail (e : String) (tbl : List ShapRow) :
    ∀ deals : List Deal,
      (∃ d ∈ deals,
        (shapLookup tbl (strTrim (d.opportunity_number.getD ""))).isSome) →
      deals.mapM (agent2_entry (fun _ _ => Except.error e) tbl) = .error e := by
  intro deals
  induction deals with
  | nil => rintro ⟨d, hd, _⟩; exact absurd hd (List.not_mem_nil d)
  | cons a l ih =>
    rintro ⟨d, hd, hsome⟩
    rw [List.mapM_cons]
    cases hlk : shapLookup tbl (strTrim (a.opportunity_number.getD "")) with
    | some row =>
      have ha : agent2_entry (fun _ _ => Except.error e) tbl a = .error e := by
        simp only [agent2_entry, hlk]
        rfl
      rw [ha]
      rfl
    | none =>
      have ha : agent2_entry (fun _ _ => Except.error e) tbl a
          = .ok { opportunity_number := strTrim (a.opportunity_number.getD ""),
                  deal_id := pyOr a.deal_id a.id, explanation := noShapText } := by
        simp only [agent2_entry, hlk]
      have hl : ∃ d ∈ l,
          (shapLookup tbl (strTrim (d.opportunity_number.getD ""))).isSome := by
        rcases List.mem_cons.mp hd with h | h
        · subst h
          rw [hlk] at hsome
          exact absurd hsome (by simp)
        · exact ⟨d, h, hsome⟩
      simp only [ha, ih hl]
      rfl

/-! ## Claim theorems -/

/-- C1, counterexample: the Planner can select only the Augmentation stage
(payload agents `["3"]` is valid), yet the executor's conditional edges route
from the orchestrator directly to the synthesizer, so the selected
Augmentation stage never executes — refuting the claim that every selected
stage executes before the Synthesizer. -/
theorem c1_counterexample :
    (orchestrator_node (.ok ⟨"", some ["3"]⟩) {}).agents_to_call = some ["3"] ∧
    Node.agent3 ∉ execTrace ["3"] ∧
    Node.synthesizer ∈ execTrace ["3"] := by
  refine ⟨by decide, by decide, by decide⟩

/-- C1, amended: a conditional stage executes exactly when it and every
earlier conditional stage are selected: the executor routes to the
Synthesizer at the first unselected stage position instead of advancing
through every node position; the Synthesizer itself always executes.  In
particular a selected Augmentation stage does not execute when Retrieval or
Explanation is unselected. -/
theorem c1_amended_routing (agents : List String) :
    (Node.agent1 ∈ execTrace agents ↔ "1" ∈ agents) ∧
    (Node.agent2 ∈ execTrace agents ↔ ("1" ∈ agents ∧ "2" ∈ agents)) ∧
    (Node.agent3 ∈ execTrace agents ↔
      ("1" ∈ agents ∧ "2" ∈ agents ∧ "3" ∈ agents)) ∧
    Node.synthesizer ∈ execTrace agents := by
  by_cases h1 : "1" ∈ agents <;> by_cases h2 : "2" ∈ agents <;>
    by_cases h3 : "3" ∈ agents <;>
    simp [execTrace, runFrom, route, h1, h2, h3]

/-- C2: at a state with one accumulated error and no stage selected, the
skipped Retrieval and Explanation stages return the empty delta (a no-op
under the merge), but the skipped Augmentation stage returns the whole state
as its delta, so the additive merge duplicates every accumulating field:
`errors` becomes `["e1", "e1"]` and the post-merge state differs from the
pre-stage state — the code contradicts the empty-delta self-skip contract it
implements in the sibling stages. -/
theorem c2_bug_eval :
    agent1_node "t" [] "x" (fun _ => .ok []) sNone = {} ∧
    agent2_node (fun _ _ => .ok "") (fun _ => .ok []) sNone = .ok ({} : Delta) ∧
    mergeState sNone ({} : Delta) = sNone ∧
    agent3_node (fun _ _ => .ok none) (.ok ()) sNone = fullDelta sNone ∧
    (mergeState sNone (fullDelta sNone)).errors = ["e1", "e1"] ∧
    mergeState sNone (agent3_node (fun _ _ => .ok none) (.ok ()) sNone) ≠ sNone := by
  refine ⟨by decide, rfl, by decide, by decide, by decide, by decide⟩

/-- C3, counterexample: the companion (SHAP) data fetch in the Explanation
stage is issued outside any exception handler, so its failure is not caught
at the stage boundary: with every stage selected and one retrieved deal, a
failing SHAP fetch makes the whole stage fail instead of yielding a delta
with an appended error — refuting the claim that no collaborator failure
aborts the turn. -/
theorem c3_counterexample :
    agent2_node (fun _ _ => .ok "text") (fun _ => .error "shap fetch failed") sAll
      = .error "shap fetch failed" := rfl

/-- C3, amended: a primary data fetch failure is caught at the Retrieval
stage boundary (one error appended, zero rows, delta still produced) and a
news lookup failure is caught per pair inside the Augmentation stage (every
entry records the error with empty snippets); but a companion (SHAP) data
fetch failure in the Explanation stage is not caught and aborts the turn,
and so does a per-record summarization failure there (whenever a
summarization call occurs at all, i.e. some retrieved record has a companion
row). -/
theorem c3_amended_isolation :
    (∀ (table : String) (cols : List String) (llm e : String) (s : AppState),
      "1" ∈ s.agents_to_call →
        (agent1_node table cols llm (fun _ => .error e) s).retrieved_deals = some [] ∧
        ∃ m, (agent1_node table cols llm (fun _ => .error e) s).errors
          = some (s.errors ++ [m])) ∧
    (∀ (summarize : Option String → String → Except String String) (e : String)
        (s : AppState), "2" ∈ s.agents_to_call → s.retrieved_deals ≠ [] →
      agent2_node summarize (fun _ => .error e) s = .error e) ∧
    (∀ (e : String) (tbl : List ShapRow) (s : AppState),
      "2" ∈ s.agents_to_call →
      (∃ d ∈ s.retrieved_deals,
        (shapLookup tbl (strTrim (d.opportunity_number.getD ""))).isSome) →
      agent2_node (fun _ _ => .error e) (fun _ => .ok tbl) s = .error e) ∧
    (∀ (e : String) (s : AppState), "3" ∈ s.agents_to_call →
        s.retrieved_deals ≠ [] →
      ∃ l, (agent3_node (fun _ _ => .error e) (.ok ()) s).news = some l ∧
        ∀ en ∈ l, en.error = some ("News search failed: " ++ e) ∧
          en.snippets = some ([] : List String)) := by
  refine ⟨?_, ?_, ?_, ?_⟩
  · intro table cols llm e s h1
    rw [agent1_node, if_neg (not_not_intro h1)]
    exact ⟨rfl, _, rfl⟩
  · intro summarize e s h2 hne
    rw [agent2_node, if_neg (not_not_intro h2)]
    simp only [List.isEmpty_eq_true]
    rw [if_neg hne]
  · intro e tbl s h2 hex
    have hne : s.retrieved_deals ≠ [] := by
      rcases hex with ⟨d, hd, _⟩
      intro h
      rw [h] at hd
      exact (List.not_mem_nil d) hd
    rw [agent2_node, if_neg (not_not_intro h2)]
    simp only [List.isEmpty_eq_true]
    rw [if_neg hne]
    show (List.mapM (agent2_entry (fun _ _ => Except.error e) tbl)
        s.retrieved_deals).map
        (fun es => ({ explanations := some es } : Delta)) = _
    rw [agent2_mapM_summ_fail e tbl s.retrieved_deals hex]
    rfl
  · intro e s h3 hne
    rw [agent3_node, if_neg (not_not_intro h3), if_neg (by simpa using hne)]
    refine ⟨_, rfl, ?_⟩
    intro en hen
    rw [List.mem_map] at hen
    obtain ⟨p, _, hp⟩ := hen
    rw [← hp]
    exact ⟨rfl, rfl⟩

/-- Witness for C3's amended theorem at concrete inputs (the summarization
conjunct is exercised with a SHAP table containing a row for the retrieved
deal, so the failing summarization call actually occurs). -/
theorem c3_amended_isolation_witness :
    ((agent1_node "t" [] "x" (fun _ => .error "E") sAll).retrieved_deals = some [] ∧
      ∃ m, (agent1_node "t" [] "x" (fun _ => .error "E") sAll).errors
        = some (sAll.errors ++ [m])) ∧
    agent2_node (fun _ _ => .ok "") (fun _ => .error "E") sAll = .error "E" ∧
    agent2_node (fun _ _ => .error "E")
      (fun _ => .ok ([[("opportunity_number", "OP1")]] : List ShapRow)) sAll
      = .error "E" ∧
    (∃ l, (agent3_node (fun _ _ => .error "E") (.ok ()) sAll).news = some l ∧
      ∀ en ∈ l, en.error = some ("News search failed: " ++ "E") ∧
        en.snippets = some ([] : List String)) := by
  refine ⟨c3_amended_isolation.1 "t" [] "x" "E" sAll (by decide),
    c3_amended_isolation.2.1 (fun _ _ => .ok "") "E" sAll (by decide) (by decide),
    c3_amended_isolation.2.2.1 "E" ([[("opportunity_number", "OP1")]] : List ShapRow)
      sAll (by decide) (by decide),
    c3_amended_isolation.2.2.2 "E" sAll (by decide) (by decide)⟩

/-- C4: when the planner response cannot be parsed and the incoming state has
no prior-turn filter, the Planner's delta has the full fixed stage set, the
empty filter, and exactly one error entry appended to the accumulated
errors; and a payload containing a stage id outside the fixed id space is
likewise replaced by the full fixed set. -/
theorem c4_fail_open (e : String) (s : AppState) (hpf : s.parsed_filters = "") :
    (orchestrator_node (.error e) s).parsed_filters = some "" ∧
    (orchestrator_node (.error e) s).agents_to_call = some fixedAgents ∧
    (orchestrator_node (.error e) s).errors
      = some (s.errors ++ ["Failed to parse planner JSON: " ++ e]) ∧
    ∀ (p : PlannerPayload) (l : List String), p.agents = some l →
      l.any (fun a => !(fixedAgents.contains a)) = true →
      (orchestrator_node (.ok p) s).agents_to_call = some fixedAgents := by
  refine ⟨by simp [orchestrator_node, hpf], rfl, rfl, ?_⟩
  intro p l hl hany
  have hany' : ∃ x ∈ l, x ∉ fixedAgents := by simpa using hany
  have hle : l ≠ [] := by
    intro h
    rw [h] at hany
    exact Bool.false_ne_true hany
  simp [orchestrator_node, parseAgents, hl, hle, hany']

/-- Witness for C4 at concrete inputs: a failed parse on the empty state, and
a payload carrying the unknown stage id `"7"`. -/
theorem c4_fail_open_witness :
    (orchestrator_node (.error "bad") {}).parsed_filters = some "" ∧
    (orchestrator_node (.error "bad") {}).agents_to_call = some fixedAgents ∧
    (orchestrator_node (.error "bad") {}).errors
      = some (([] : List String) ++ ["Failed to parse planner JSON: " ++ "bad"]) ∧
    (orchestrator_node (.ok ⟨"f", some ["7"]⟩) {}).agents_to_call
      = some fixedAgents := by
  have h := c4_fail_open "bad" {} rfl
  exact ⟨h.1, h.2.1, h.2.2.1, h.2.2.2 ⟨"f", some ["7"]⟩ ["7"] rfl (by decide)⟩

/-- C8, counterexample: a whitespace-only ("blank" but non-empty) parsed
filter is truthy in the source's carry-forward test, so it is kept verbatim
instead of being replaced by the existing prior-turn filter — refuting the
claim for blank filters. -/
theorem c8_counterexample :
    (orchestrator_node (.ok ⟨" ", some ["1"]⟩)
        { parsed_filters := "region = X" }).parsed_filters = some " " ∧
    (" " : String) ≠ "region = X" := by
  refine ⟨by decide, by decide⟩

/-- C8, amended: only when the parsed filter is exactly the empty string (a
whitespace-only filter counts as present) and a non-empty prior-turn filter
exists does the Planner adopt the prior filter. -/
theorem c8_amended_carry (p : PlannerPayload) (s : AppState)
    (hf : p.filters = "") (hprior : s.parsed_filters ≠ "") :
    (orchestrator_node (.ok p) s).parsed_filters = some s.parsed_filters := by
  rw [orchestrator_node]
  by_cases hinv : ∃ x ∈ parseAgents p.agents, x ∉ fixedAgents <;>
    simp [hinv, hf, hprior]

/-- Witness for C8's amended theorem at a concrete payload and state. -/
theorem c8_amended_carry_witness :
    (orchestrator_node (.ok ⟨"", some ["1"]⟩)
        { parsed_filters := "region = X" }).parsed_filters = some "region = X" :=
  c8_amended_carry ⟨"", some ["1"]⟩ { parsed_filters := "region = X" } rfl (by decide)

/-- C9: for every response (parseable or not) and every input state, the
Planner's selected stage set equals the fail-open characterization
`plannedAgentsSpec` (missing or empty agents list defaults to the full fixed
set, a list with an unknown id is replaced by the full fixed set), and that
set is non-empty with every element in the fixed id space. -/
theorem c9_agents_invariant (resp : Except String PlannerPayload) (s : AppState) :
    (orchestrator_node resp s).agents_to_call = some (plannedAgentsSpec resp) ∧
    plannedAgentsSpec resp ≠ [] ∧
    (plannedAgentsSpec resp).all (fun a => fixedAgents.contains a) = true := by
  rcases resp with e | p
  · exact ⟨rfl, (by decide : fixedAgents ≠ []),
      (by decide : fixedAgents.all (fun a => fixedAgents.contains a) = true)⟩
  · rcases hp : p.agents with _ | l
    · refine ⟨?_, ?_, ?_⟩ <;>
        simp [orchestrator_node, plannedAgentsSpec, parseAgents, hp] <;> decide
    · by_cases hle : l = []
      · subst hle
        refine ⟨?_, ?_, ?_⟩ <;>
          simp [orchestrator_node, plannedAgentsSpec, parseAgents, hp] <;> decide
      · by_cases hinv : ∃ x ∈ l, x ∉ fixedAgents
        · refine ⟨?_, ?_, ?_⟩ <;>
            simp [orchestrator_node, plannedAgentsSpec, parseAgents, hp, hle, hinv] <;> decide
        · have hall : ∀ x ∈ l, x ∈ fixedAgents := by
            intro x hx
            by_contra hx'
            exact hinv ⟨x, hx, hx'⟩
          refine ⟨?_, ?_, ?_⟩ <;>
            simp [orchestrator_node, plannedAgentsSpec, parseAgents, hp, hle, hinv]
          exact hall

/-- Witness instantiation of the C1 amended theorem at a concrete stage set. -/
theorem c1_amended_routing_witness :
    (Node.agent1 ∈ execTrace ["1", "3"] ↔ "1" ∈ (["1", "3"] : List String)) ∧
    (Node.agent2 ∈ execTrace ["1", "3"] ↔
      ("1" ∈ (["1", "3"] : List String) ∧ "2" ∈ (["1", "3"] : List String))) ∧
    (Node.agent3 ∈ execTrace ["1", "3"] ↔
      ("1" ∈ (["1", "3"] : List String) ∧ "2" ∈ (["1", "3"] : List String) ∧
        "3" ∈ (["1", "3"] : List String))) ∧
    Node.synthesizer ∈ execTrace ["1", "3"] :=
  c1_amended_routing ["1", "3"]

/-- Witness instantiation of the C9 theorem at a concrete response and state. -/
theorem c9_agents_invariant_witness :
    (orchestrator_node (.ok ⟨"f", some ["2"]⟩) {}).agents_to_call
      = some (plannedAgentsSpec (.ok ⟨"f", some ["2"]⟩)) ∧
    plannedAgentsSpec (.ok ⟨"f", some ["2"]⟩) ≠ [] ∧
    (plannedAgentsSpec (.ok ⟨"f", some ["2"]⟩)).all
      (fun a => fixedAgents.contains a) = true :=
  c9_agents_invariant (.ok ⟨"f", some ["2"]⟩) {}

/-- C5: with the Explanation stage selected and both collaborators
succeeding, the stage's delta carries an explicit explanation list (present
even when there are zero retrieved records) with exactly one entry per
retrieved record, in order, each keyed by the record's stripped join key;
a record with no companion SHAP row gets the sentinel explanation instead of
being dropped. -/
theorem c5_explanation_cardinality (summ : Option String → String → String)
    (tbl : List ShapRow) (s : AppState) (h2 : "2" ∈ s.agents_to_call) :
    ∃ es : List ExplEntry,
      agent2_node (fun p f => .ok (summ p f)) (fun _ => .ok tbl) s
        = .ok { explanations := some es } ∧
      es.length = s.retrieved_deals.length ∧
      ∀ pr ∈ es.zip s.retrieved_deals,
        pr.1.opportunity_number = strTrim (pr.2.opportunity_number.getD "") ∧
        (shapLookup tbl (strTrim (pr.2.opportunity_number.getD "")) = none →
          pr.1.explanation = noShapText) := by
  rw [agent2_node, if_neg (not_not_intro h2)]
  by_cases hemp : s.retrieved_deals.isEmpty
  · have hnil : s.retrieved_deals = [] := by simpa using hemp
    refine ⟨[], ?_, ?_, ?_⟩ <;> simp [hnil, hemp]
  · refine ⟨s.retrieved_deals.map (agent2_entry_total summ tbl), ?_, ?_, ?_⟩
    · rw [if_neg hemp]
      show (List.mapM (agent2_entry (fun p f => Except.ok (summ p f)) tbl)
          s.retrieved_deals).map
          (fun es => ({ explanations := some es } : Delta)) = _
      rw [exceptMapM_ok _ _ (agent2_entry_ok summ tbl) s.retrieved_deals]
      rfl
    · exact List.length_map _ _
    · intro pr hpr
      have h := zip_map_self (agent2_entry_total summ tbl) s.retrieved_deals pr hpr
      rw [h]
      exact ⟨agent2_entry_total_key summ tbl pr.2,
        agent2_entry_total_sentinel summ tbl pr.2⟩

/-- Witness for C5 at a concrete state (one retrieved record, empty SHAP
table, constant summariser). -/
theorem c5_explanation_cardinality_witness :
    ∃ es : List ExplEntry,
      agent2_node (fun p f => .ok ((fun _ _ => "t") p f)) (fun _ => .ok []) sAll
        = .ok { explanations := some es } ∧
      es.length = sAll.retrieved_deals.length ∧
      ∀ pr ∈ es.zip sAll.retrieved_deals,
        pr.1.opportunity_number = strTrim (pr.2.opportunity_number.getD "") ∧
        (shapLookup [] (strTrim (pr.2.opportunity_number.getD "")) = none →
          pr.1.explanation = noShapText) :=
  c5_explanation_cardinality (fun _ _ => "t") [] sAll (by decide)

/-- C6: the intended discard of placeholder categories is ineffective: the
industry string is lowercased before the membership test against the
capitalized literals `["Others", "Others 2"]`, so a deal whose industry is
the placeholder `Others` still yields the pair `("others", "Acme")`, and the
Augmentation stage issues a lookup and records a news entry for it, where
the claim says such pairs are discarded. -/
theorem c6_bug_eval :
    agent3_pairs [dealOthers] = [("others", "Acme")] ∧
    (agent3_node (fun _ _ => .ok (some "n")) (.ok ()) sOthers).news
      = some [{ industry := some "others", customer := some "Acme",
                query := some (newsQuery "others" "Acme"),
                snippets := some ["n"] }] := by
  refine ⟨by decide, by decide⟩

set_option maxRecDepth 8000 in
/-- C7, counterexample: the fallback query is built from `select_cols` =
base columns plus schema columns mentioned in the query text, not from the
base field set alone: with schema column `Discount_Percent` and a user query
mentioning `discount_percent`, the fallback selects an eleventh column
beyond the ten base columns — refuting "selects only the explicitly allowed
base field set". -/
theorem c7_counterexample :
    (agent1_node "tbl" ["Discount_Percent"] "DROP TABLE x" (fun _ => .ok [])
        sDiscount).sql_query
      = some ("SELECT " ++ String.intercalate ", "
          (base_cols ++ ["discount_percent"]) ++ " FROM " ++ "tbl") ∧
    ("SELECT " ++ String.intercalate ", " (base_cols ++ ["discount_percent"])
        ++ " FROM " ++ "tbl")
      ≠ ("SELECT " ++ String.intercalate ", " base_cols ++ " FROM " ++ "tbl") := by
  refine ⟨by decide, by decide⟩

/-- C7, amended: whenever the generated query does not start with `select`
(case-insensitively, after stripping), the stage uses the fallback
`SELECT <select_cols> FROM <table>`, with a `WHERE` clause exactly when the
active filter is non-empty, where `select_cols` is the base field set plus
the (lowercased) schema columns occurring in the query/history text; in
particular it equals the base field set alone when no schema column is
mentioned there. -/
theorem c7_amended_fallback (table : String) (cols : List String) (llm : String)
    (fetch : String → Except String (List Deal)) (s : AppState)
    (h1 : "1" ∈ s.agents_to_call)
    (hsw : (strStartsWith (strLower (strTrim llm)) "select") = false) :
    (agent1_node table cols llm fetch s).sql_query
      = some ("SELECT " ++ String.intercalate ", " (agent1_select_cols cols s)
          ++ " FROM " ++ table
          ++ (if s.parsed_filters ≠ "" then " WHERE " ++ s.parsed_filters else "")) ∧
    ((dedupFirst (cols.map strLower)).all
        (fun c => !(strContains (queryText s) c)) = true →
      agent1_select_cols cols s = base_cols) := by
  have hsql : agent1_sql table cols llm s
      = "SELECT " ++ String.intercalate ", " (agent1_select_cols cols s)
          ++ " FROM " ++ table
          ++ (if s.parsed_filters ≠ "" then " WHERE " ++ s.parsed_filters else "") := by
    rw [agent1_sql]
    exact if_pos hsw
  refine ⟨?_, ?_⟩
  · rw [agent1_node_eq table cols llm fetch s h1, agent1_result_sql, hsql]
  · intro hall
    have hfilter : (dedupFirst (cols.map strLower)).filter
        (fun c => strContains (queryText s) c) = [] := by
      rw [List.filter_eq_nil]
      intro a ha
      have h := List.all_eq_true.mp hall a ha
      simp only [Bool.not_eq_true'] at h
      simp [h]
    rw [agent1_select_cols, hfilter, List.append_nil]
    rfl

/-- Witness for C7's amended theorem at concrete inputs (no schema columns,
empty filter). -/
theorem c7_amended_fallback_witness :
    ((agent1_node "tbl" [] "oops" (fun _ => .ok []) sDiscount).sql_query
      = some ("SELECT " ++ String.intercalate ", " (agent1_select_cols [] sDiscount)
          ++ " FROM " ++ "tbl"
          ++ (if sDiscount.parsed_filters ≠ ""
              then " WHERE " ++ sDiscount.parsed_filters else "")) ∧
    ((dedupFirst (([] : List String).map strLower)).all
        (fun c => !(strContains (queryText sDiscount) c)) = true →
      agent1_select_cols [] sDiscount = base_cols)) :=
  c7_amended_fallback "tbl" [] "oops" (fun _ => .ok []) sDiscount
    (by decide) (by decide)

/-- C10: with Retrieval selected, the stage's delta for `errors` is the
entire pre-existing error list plus any newly recorded fetch error; since
the `errors` channel merges additively, the post-merge errors equal the
pre-existing list concatenated with that delta, so every error recorded
before Retrieval ran occurs at least twice afterwards. -/
theorem c10_errors_double (table : String) (cols : List String) (llm : String)
    (fetch : String → Except String (List Deal)) (s : AppState)
    (h1 : "1" ∈ s.agents_to_call) :
    ∃ newErrs : List String,
      (agent1_node table cols llm fetch s).errors = some (s.errors ++ newErrs) ∧
      (mergeState s (agent1_node table cols llm fetch s)).errors
        = s.errors ++ (s.errors ++ newErrs) ∧
      ∀ x ∈ s.errors,
        2 ≤ ((mergeState s (agent1_node table cols llm fetch s)).errors).count x := by
  obtain ⟨ne, he⟩ := agent1_result_errors s (agent1_sql table cols llm s)
    (fetch (agent1_sql table cols llm s))
  rw [agent1_node_eq table cols llm fetch s h1]
  refine ⟨ne, he, ?_, ?_⟩
  · simp [mergeState, he]
  · intro x hx
    have hpos : 0 < s.errors.count x := List.count_pos_iff_mem.mpr hx
    simp only [mergeState, he, Option.getD_some, List.count_append]
    omega

/-- Witness for C10 at a concrete state with one pre-existing error and a
failing fetch. -/
theorem c10_errors_double_witness :
    ∃ newErrs : List String,
      (agent1_node "t" [] "x" (fun _ => .error "E") sErrSel).errors
        = some (sErrSel.errors ++ newErrs) ∧
      (mergeState sErrSel (agent1_node "t" [] "x" (fun _ => .error "E") sErrSel)).errors
        = sErrSel.errors ++ (sErrSel.errors ++ newErrs) ∧
      ∀ x ∈ sErrSel.errors,
        2 ≤ ((mergeState sErrSel
          (agent1_node "t" [] "x" (fun _ => .error "E") sErrSel)).errors).count x :=
  c10_errors_double "t" [] "x" (fun _ => .error "E") sErrSel (by decide)

end EonApp
